import Mathlib

/-!
Verification of the Dino Game core loop (`src/game_solution.py`).

The embedding below mirrors the source functions of the `DinoGame` class:
`check_collision`, `update_game`, `jump`, `create_obstacles`, `increase_speed`,
`game_over`, `save_game_state`, `load_saved_state` and `load_initial_state`.
Canvas coordinates are modelled as rationals, random draws and sprite bounding
boxes (which come from image files unknown to the core logic) are passed in as
explicit parameters.
-/

namespace DinoGame

/-- An axis-aligned bounding box as returned by `canvas.bbox`:
top-left corner `(x1, y1)`, bottom-right corner `(x2, y2)`. -/
structure Box where
  x1 : ℚ
  y1 : ℚ
  x2 : ℚ
  y2 : ℚ
deriving DecidableEq

/-- `check_collision` (source lines 298-339): returns `False` immediately while
invincible; otherwise shrinks the dino box by the margins (horizontal 30,
vertical 7), shrinks the obstacle box by 30 on all sides, and tests strict
overlap of the adjusted boxes. -/
def check_collision (invincible : Bool) (dino_coords obstacle_coords : Box) : Bool :=
  if invincible then
    false
  else
    let adjusted_dino : Box :=
      ⟨dino_coords.x1 + 30, dino_coords.y1 + 7,
       dino_coords.x2 - 30, dino_coords.y2 - 7⟩
    let adjusted_obstacle : Box :=
      ⟨obstacle_coords.x1 + 30, obstacle_coords.y1 + 30,
       obstacle_coords.x2 - 30, obstacle_coords.y2 - 30⟩
    decide (adjusted_dino.x2 > adjusted_obstacle.x1) &&
    decide (adjusted_dino.x1 < adjusted_obstacle.x2) &&
    decide (adjusted_dino.y2 > adjusted_obstacle.y1) &&
    decide (adjusted_dino.y1 < adjusted_obstacle.y2)

/-- Spec-side description: shrink a box inward by `dx` horizontally and `dy`
vertically. -/
def shrinkBox (dx dy : ℚ) (b : Box) : Box :=
  ⟨b.x1 + dx, b.y1 + dy, b.x2 - dx, b.y2 - dy⟩

/-- Spec-side description: strict interval overlap on both axes. -/
def strictOverlap (a b : Box) : Prop :=
  a.x2 > b.x1 ∧ a.x1 < b.x2 ∧ a.y2 > b.y1 ∧ a.y1 < b.y2

/-- C1: with invincibility off, the collision detector is a pure function of
the two boxes: it shrinks the actor box inward by 30 horizontally and 7
vertically, shrinks the obstacle box inward by 30 on all sides, and returns
`true` iff the two shrunk rectangles strictly overlap on both axes. -/
theorem check_collision_matches_spec (d o : Box) :
    check_collision false d o = true ↔
      strictOverlap (shrinkBox 30 7 d) (shrinkBox 30 30 o) := by
  simp [check_collision, strictOverlap, shrinkBox, and_assoc]

/-- The mapping of the three logical actions to key names
(source line 21: defaults "space", "p", "b"). -/
structure Keybinds where
  jump : String
  pause : String
  boss_key : String
deriving DecidableEq

/-- The default keybinds set in `__init__` (source line 21) and in the
exception branch of `load_initial_state` (source line 464). -/
def defaultKeybinds : Keybinds :=
  ⟨"space", "p", "b"⟩

/-- One canvas obstacle: its coordinates and the index of its image in
`obstacle_images`. -/
structure Obstacle where
  x : ℚ
  y : ℚ
  image_index : ℕ
deriving DecidableEq

/-- The mutable state of the `DinoGame` object restricted to the game-logic
attributes (GUI widget handles are omitted; obstacle canvas items are modelled
by their coordinates). -/
structure GameState where
  player_name : String
  score : ℕ
  dino_y : ℚ
  dino_jump : Bool
  dino_speed : ℚ
  obstacle_speed : ℚ
  obstacles : List Obstacle
  game_running : Bool
  paused : Bool
  invincible : Bool
  keybinds : Keybinds
  leaderboard : List (String × ℕ)
  saved_state : Bool
deriving DecidableEq

/-- The comparison used by `sorted(self.leaderboard, key=lambda x: x[1],
reverse=True)` (source line 375): Python's `sorted` is a stable sort, and with
`reverse=True` it places larger scores first while keeping ties in their
original order. -/
def scoreDescLe (a b : String × ℕ) : Bool :=
  decide (b.2 ≤ a.2)

/-- `game_over` (source lines 360-375): stops the game, clears the saved-state
flag, appends `(player_name, score)` to the leaderboard, stable-sorts it
descending by score and keeps the top 5. -/
def game_over (s : GameState) : GameState :=
  { s with
    game_running := false,
    saved_state := false,
    leaderboard :=
      ((s.leaderboard ++ [(s.player_name, s.score)]).mergeSort scoreDescLe).take 5 }

/-- The per-obstacle movement of the `update_game` loop (source lines 289-292):
move left by `obstacle_speed`; if the resulting x-coordinate is below 0,
reset the obstacle to the freshly drawn x-position `draw` at y = 340. -/
def moveObstacle (speed draw : ℚ) (o : Obstacle) : Obstacle :=
  let x' := o.x - speed
  if x' < 0 then
    ⟨draw, 340, o.image_index⟩
  else
    ⟨x', o.y, o.image_index⟩

/-- The `for obstacle, _ in self.obstacles:` loop of `update_game`
(source lines 288-294), threading the game state: each obstacle is moved
(and possibly recycled to the draw `rnd i` for its slot `i`), then tested for
collision against the dino — calling `game_over` on a hit.  `dinoBox` gives
the dino's bounding box as a function of `dino_y`, and `obsBox` the bounding
box of an obstacle; both depend on image sizes external to the game logic. -/
def obstacleLoop (dinoBox : ℚ → Box) (obsBox : Obstacle → Box) (rnd : ℕ → ℚ) :
    ℕ → GameState → List Obstacle → GameState × List Obstacle
  | _, s, [] => (s, [])
  | i, s, o :: rest =>
    let o' := moveObstacle s.obstacle_speed (rnd i) o
    let s' := if check_collision s.invincible (dinoBox s.dino_y) (obsBox o') then
        game_over s
      else
        s
    let r := obstacleLoop dinoBox obsBox rnd (i + 1) s' rest
    (r.1, o' :: r.2)

/-- The jump-physics block of `update_game` (source lines 279-284): while
jumping, add the current speed to the position, then add gravity 1.15 to the
speed; if the dino reached the ground (y ≥ 248) clamp the position to 248 and
end the jump. -/
def dinoPhysics (s : GameState) : GameState :=
  if s.dino_jump then
    let y := s.dino_y + s.dino_speed
    let v := s.dino_speed + 1.15
    if y ≥ 248 then
      { s with dino_y := 248, dino_speed := v, dino_jump := false }
    else
      { s with dino_y := y, dino_speed := v }
  else
    s

/-- `update_game` (source lines 265-296): returns immediately if the game is
not running or paused; otherwise advances the jump physics, runs the obstacle
loop, and unconditionally reaches the final `self.root.after(30,
self.update_game)`.  The boolean of the pair records whether that reschedule
call was reached. -/
def update_game (dinoBox : ℚ → Box) (obsBox : Obstacle → Box) (rnd : ℕ → ℚ)
    (s : GameState) : GameState × Bool :=
  if !s.game_running || s.paused then
    (s, false)
  else
    let s1 := dinoPhysics s
    let r := obstacleLoop dinoBox obsBox rnd 0 s1 s1.obstacles
    ({ r.1 with obstacles := r.2 }, true)

/-- `jump` (source lines 223-239): only when not already jumping and not
paused, set `dino_jump` and give the dino the initial jump speed -15. -/
def jump (s : GameState) : GameState :=
  if !s.dino_jump && !s.paused then
    { s with dino_jump := true, dino_speed := -15 }
  else
    s

/-- `increase_speed` (source lines 351-358): adds 0.75 to `obstacle_speed`
when the game is not paused and the speed is below `max_speed` = 25; the
reschedule is unconditional and is not part of the state change. -/
def increase_speed (s : GameState) : GameState :=
  if s.obstacle_speed < 25 ∧ s.paused = false then
    { s with obstacle_speed := s.obstacle_speed + 0.75 }
  else
    s

/-- `create_obstacles` (source lines 242-263): only when the obstacle list is
empty, place the first obstacle at the draw `r1` (from `randint(750, 850)`)
and the second at `r1` plus the draw `roff` (from `randint(400, 800)`), both
at y = 340 with the first (index 0) obstacle image. -/
def create_obstacles (r1 roff : ℚ) (obstacles : List Obstacle) : List Obstacle :=
  if obstacles.isEmpty then
    [⟨r1, 340, 0⟩, ⟨r1 + roff, 340, 0⟩]
  else
    obstacles

/-- The game-logic attributes set by `setup_game` (source lines 152-221)
before obstacles are created: fresh score, dino on the ground, speed 5,
running and unpaused.  `player_name`, `keybinds`, `leaderboard`,
`saved_state` and `invincible` are carried over from the surrounding object
state, and the obstacle list starts empty.  The source leaves `dino_speed`
unassigned until the first `jump`; we initialize it to 0, the default
`save_game_state` substitutes for the absent attribute (source line 481). -/
def setup_game (name : String) (kb : Keybinds) (lb : List (String × ℕ))
    (saved inv : Bool) : GameState :=
  { player_name := name,
    score := 0,
    dino_y := 248,
    dino_jump := false,
    dino_speed := 0,
    obstacle_speed := 5,
    obstacles := [],
    game_running := true,
    paused := false,
    invincible := inv,
    keybinds := kb,
    leaderboard := lb,
    saved_state := saved }

/-- One obstacle entry of the persisted snapshot (source lines 499-503):
its coordinates and the index of its image. -/
structure ObstacleData where
  x : ℚ
  y : ℚ
  image_index : ℕ
deriving DecidableEq

/-- The flat record written by `save_game_state` (source lines 476-507): all
nine keys are always present in a freshly written file. -/
structure Snapshot where
  player_name : String
  score : ℕ
  dino_y : ℚ
  dino_jump : Bool
  dino_speed : ℚ
  obstacle_speed : ℚ
  keybinds : Keybinds
  leaderboard : List (String × ℕ)
  obstacles : List ObstacleData
deriving DecidableEq

/-- A save file as parsed by `json.load`: any key may be missing (`none`), in
which case the `.get` defaults of the loading code apply. -/
structure SaveFile where
  player_name : Option String
  score : Option ℕ
  dino_y : Option ℚ
  dino_jump : Option Bool
  dino_speed : Option ℚ
  obstacle_speed : Option ℚ
  keybinds : Option Keybinds
  leaderboard : Option (List (String × ℕ))
  obstacles : Option (List ObstacleData)
deriving DecidableEq

/-- Parsing back a snapshot written by `save_game_state`: every key is
present. -/
def Snapshot.toSaveFile (s : Snapshot) : SaveFile :=
  ⟨some s.player_name, some s.score, some s.dino_y, some s.dino_jump,
   some s.dino_speed, some s.obstacle_speed, some s.keybinds,
   some s.leaderboard, some s.obstacles⟩

/-- The attributes of the `DinoGame` object as read by `save_game_state`: the
game attributes may be absent (then the `getattr` default applies), and the
canvas — carrying the current obstacle coordinates — may be absent as well
(then an empty obstacle array is written, source lines 488-507). -/
structure AppState where
  player_name : Option String
  score : Option ℕ
  dino_y : Option ℚ
  dino_jump : Option Bool
  dino_speed : Option ℚ
  obstacle_speed : Option ℚ
  keybinds : Keybinds
  leaderboard : List (String × ℕ)
  canvas : Option (List ObstacleData)

/-- `save_game_state` (source lines 467-514): collects the game attributes
with `getattr` defaults ("Player", 0, 300, False, 0, 5) together with the
keybinds and leaderboard, and writes the obstacle coordinates from the
canvas — or an empty array when no canvas is available. -/
def save_game_state (a : AppState) : Snapshot :=
  { player_name := a.player_name.getD "Player",
    score := a.score.getD 0,
    dino_y := a.dino_y.getD 300,
    dino_jump := a.dino_jump.getD false,
    dino_speed := a.dino_speed.getD 0,
    obstacle_speed := a.obstacle_speed.getD 5,
    keybinds := a.keybinds,
    leaderboard := a.leaderboard,
    obstacles := a.canvas.getD [] }

/-- The attributes of a live session as seen by `save_game_state`;
`canvasUp` tells whether a render surface holding the obstacle items is
available at serialization time. -/
def GameState.toApp (s : GameState) (canvasUp : Bool) : AppState :=
  { player_name := some s.player_name,
    score := some s.score,
    dino_y := some s.dino_y,
    dino_jump := some s.dino_jump,
    dino_speed := some s.dino_speed,
    obstacle_speed := some s.obstacle_speed,
    keybinds := s.keybinds,
    leaderboard := s.leaderboard,
    canvas :=
      if canvasUp then
        some (s.obstacles.map fun o => ⟨o.x, o.y, o.image_index⟩)
      else
        none }

/-- `load_saved_state` (source lines 539-595): restore each field with its
`.get` default ("Player", 0, 248, False, 0, 5, current keybinds), rebuild the
obstacles from the stored coordinates, fall back to `create_obstacles` (with
draws `r1`, `roff`) when none were stored, and leave the game paused.
`prior` is the state built by `setup_game` before loading. -/
def load_saved_state (prior : GameState) (file : SaveFile) (r1 roff : ℚ) :
    GameState :=
  let s := { prior with
    player_name := file.player_name.getD "Player",
    score := file.score.getD 0,
    dino_y := file.dino_y.getD 248,
    dino_jump := file.dino_jump.getD false,
    dino_speed := file.dino_speed.getD 0,
    obstacle_speed := file.obstacle_speed.getD 5,
    keybinds := file.keybinds.getD prior.keybinds }
  let obs := (file.obstacles.getD []).map fun d => Obstacle.mk d.x d.y d.image_index
  let obs2 := if obs.isEmpty then create_obstacles r1 roff [] else obs
  { s with obstacles := obs2, paused := true }

/-- `load_initial_state` (source lines 443-465): on a missing or unparsable
file (`none`) reset the leaderboard and keybinds to the defaults and record no
saved state; on a parsed file accept it only when both a `score` and a
`keybinds` key are present, reading the leaderboard (default `[]`) and
keybinds (default: the current ones) and recording a saved state; otherwise
leave the current values and record no saved state. -/
def load_initial_state (priorLeaderboard : List (String × ℕ))
    (priorKeybinds : Keybinds) :
    Option SaveFile → List (String × ℕ) × Keybinds × Bool
  | none => ([], defaultKeybinds, false)
  | some gs =>
    if gs.score.isSome ∧ gs.keybinds.isSome then
      (gs.leaderboard.getD [], gs.keybinds.getD priorKeybinds, true)
    else
      (priorLeaderboard, priorKeybinds, false)

/-! Concrete instances used in witnesses and counterexamples. -/

/-- A degenerate obstacle bounding box: nothing ever collides with it. -/
def noBox : Obstacle → Box :=
  fun _ => ⟨0, 0, 0, 0⟩

/-- A width-zero dino bounding box at the dino's vertical position. -/
def flatDinoBox : ℚ → Box :=
  fun y => ⟨0, y, 0, y⟩

/-- A large dino bounding box covering the left of the screen. -/
def wideDinoBox : ℚ → Box :=
  fun y => ⟨0, y, 200, y + 100⟩

/-- A large obstacle bounding box centred on the obstacle. -/
def wideObsBox : Obstacle → Box :=
  fun o => ⟨o.x - 100, 0, o.x + 100, 400⟩

/-- A random oracle that always draws 900. -/
def rnd900 : ℕ → ℚ :=
  fun _ => 900

/-- A random oracle that always draws 1100 — a value `random.randint(800,
1100)` returns with positive probability, both bounds being inclusive. -/
def rnd1100 : ℕ → ℚ :=
  fun _ => 1100

/-- A running unpaused session whose two obstacles occupy the same position
just right of the dino — the configuration independent recycling can produce
(for instance after both obstacles recycle on the same tick with equal
draws). -/
def sTwin : GameState :=
  { setup_game "P" defaultKeybinds [] false false with
      score := 7,
      obstacles := [⟨100, 340, 0⟩, ⟨100, 340, 0⟩] }

/-- A fresh session with its two obstacles far to the right. -/
def sJump0 : GameState :=
  { setup_game "Player" defaultKeybinds [] false false with
      obstacles := [⟨800, 340, 0⟩, ⟨1300, 340, 0⟩] }

/-- One tick with boxes that never collide and a fixed random oracle. -/
def stepCE (s : GameState) : GameState :=
  (update_game flatDinoBox noBox rnd900 s).1

/-- A running invincible session with an obstacle overlapping the dino. -/
def sInv : GameState :=
  { setup_game "P" defaultKeybinds [] false true with
      obstacles := [⟨100, 340, 0⟩] }

/-- A running unpaused session whose first obstacle is about to scroll past
the left edge. -/
def sRecycle : GameState :=
  { setup_game "R" defaultKeybinds [] false false with
      obstacles := [⟨3, 340, 0⟩, ⟨600, 340, 0⟩] }

/-- A paused session. -/
def sHalt : GameState :=
  { setup_game "Q" defaultKeybinds [] false false with paused := true }

/-- The player-actor rest invariant of the spec, restricted to the position:
when the dino is not jumping it sits on the ground. -/
def groundInvariant (s : GameState) : Prop :=
  s.dino_jump = false → s.dino_y = 248

/-- A session about to end with score 50, whose leaderboard already holds two
entries with the same score 50. -/
def sLead : GameState :=
  { setup_game "C" defaultKeybinds [("A", 50), ("B", 50)] false false with
      score := 50 }

/-- The speed-ramp timer system: the game state together with the number of
ramp callbacks registered (via `self.root.after(self.speed_increase_interval,
self.increase_speed)`) to fire at the next 5-second boundary.  All ramp
registrations use the same 5000 ms delay, so a pending count per boundary is
a faithful picture of the timer queue. -/
structure RampSched where
  state : GameState
  pending : ℕ

/-- The ramp side effects of `setup_game`: line 200 registers one callback
for the next 5-second boundary, and line 219 calls `increase_speed` directly
— performing one (gated) increment right away and, through the unconditional
reschedule at line 358, registering a second callback for the same boundary.
So `setup_game` returns with the speed already incremented once and two
callbacks pending. -/
def ramp_start (s : GameState) : RampSched :=
  { state := increase_speed s, pending := 1 + 1 }

/-- One 5-second boundary of the ramp timer: every pending callback fires,
each running `increase_speed` once; the reschedule at line 358 is
unconditional, so each firing re-registers exactly one callback for the
following boundary and the pending count is preserved. -/
def ramp_tick (r : RampSched) : RampSched :=
  { state := increase_speed^[r.pending] r.state, pending := r.pending }

/-! Helper lemmas. -/

theorem check_collision_of_invincible (d o : Box) :
    check_collision true d o = false :=
  rfl

@[simp] theorem game_over_player_name (s : GameState) :
    (game_over s).player_name = s.player_name :=
  rfl

@[simp] theorem game_over_score (s : GameState) :
    (game_over s).score = s.score :=
  rfl

@[simp] theorem game_over_dino_y (s : GameState) :
    (game_over s).dino_y = s.dino_y :=
  rfl

@[simp] theorem game_over_dino_jump (s : GameState) :
    (game_over s).dino_jump = s.dino_jump :=
  rfl

@[simp] theorem game_over_dino_speed (s : GameState) :
    (game_over s).dino_speed = s.dino_speed :=
  rfl

@[simp] theorem game_over_obstacle_speed (s : GameState) :
    (game_over s).obstacle_speed = s.obstacle_speed :=
  rfl

@[simp] theorem game_over_obstacles (s : GameState) :
    (game_over s).obstacles = s.obstacles :=
  rfl

@[simp] theorem game_over_paused (s : GameState) :
    (game_over s).paused = s.paused :=
  rfl

@[simp] theorem game_over_invincible (s : GameState) :
    (game_over s).invincible = s.invincible :=
  rfl

@[simp] theorem dinoPhysics_player_name (s : GameState) :
    (dinoPhysics s).player_name = s.player_name := by
  unfold dinoPhysics
  split
  · dsimp only
    split <;> rfl
  · rfl

@[simp] theorem dinoPhysics_score (s : GameState) :
    (dinoPhysics s).score = s.score := by
  unfold dinoPhysics
  split
  · dsimp only
    split <;> rfl
  · rfl

@[simp] theorem dinoPhysics_obstacle_speed (s : GameState) :
    (dinoPhysics s).obstacle_speed = s.obstacle_speed := by
  unfold dinoPhysics
  split
  · dsimp only
    split <;> rfl
  · rfl

@[simp] theorem dinoPhysics_obstacles (s : GameState) :
    (dinoPhysics s).obstacles = s.obstacles := by
  unfold dinoPhysics
  split
  · dsimp only
    split <;> rfl
  · rfl

@[simp] theorem dinoPhysics_game_running (s : GameState) :
    (dinoPhysics s).game_running = s.game_running := by
  unfold dinoPhysics
  split
  · dsimp only
    split <;> rfl
  · rfl

@[simp] theorem dinoPhysics_paused (s : GameState) :
    (dinoPhysics s).paused = s.paused := by
  unfold dinoPhysics
  split
  · dsimp only
    split <;> rfl
  · rfl

@[simp] theorem dinoPhysics_invincible (s : GameState) :
    (dinoPhysics s).invincible = s.invincible := by
  unfold dinoPhysics
  split
  · dsimp only
    split <;> rfl
  · rfl

@[simp] theorem dinoPhysics_leaderboard (s : GameState) :
    (dinoPhysics s).leaderboard = s.leaderboard := by
  unfold dinoPhysics
  split
  · dsimp only
    split <;> rfl
  · rfl

theorem obstacleLoop_fst_of_invincible (dinoBox : ℚ → Box)
    (obsBox : Obstacle → Box) (rnd : ℕ → ℚ) :
    ∀ (os : List Obstacle) (i : ℕ) (s : GameState), s.invincible = true →
      (obstacleLoop dinoBox obsBox rnd i s os).1 = s
  | [], _, _, _ => rfl
  | o :: rest, i, s, h => by
    simp only [obstacleLoop]
    rw [h, check_collision_of_invincible]
    simp only [Bool.false_eq_true, if_false]
    exact obstacleLoop_fst_of_invincible dinoBox obsBox rnd rest (i + 1) s h

theorem obstacleLoop_fst_fields (dinoBox : ℚ → Box) (obsBox : Obstacle → Box)
    (rnd : ℕ → ℚ) :
    ∀ (os : List Obstacle) (i : ℕ) (s : GameState),
      (obstacleLoop dinoBox obsBox rnd i s os).1.dino_y = s.dino_y ∧
      (obstacleLoop dinoBox obsBox rnd i s os).1.dino_jump = s.dino_jump ∧
      (obstacleLoop dinoBox obsBox rnd i s os).1.dino_speed = s.dino_speed ∧
      (obstacleLoop dinoBox obsBox rnd i s os).1.obstacle_speed = s.obstacle_speed ∧
      (obstacleLoop dinoBox obsBox rnd i s os).1.invincible = s.invincible ∧
      (obstacleLoop dinoBox obsBox rnd i s os).1.paused = s.paused
  | [], _, _ => ⟨rfl, rfl, rfl, rfl, rfl, rfl⟩
  | o :: rest, i, s => by
    simp only [obstacleLoop]
    by_cases hc : check_collision s.invincible (dinoBox s.dino_y)
        (obsBox (moveObstacle s.obstacle_speed (rnd i) o)) = true
    · simp only [hc, if_true]
      have ih := obstacleLoop_fst_fields dinoBox obsBox rnd rest (i + 1) (game_over s)
      simpa using ih
    · simp only [Bool.not_eq_true] at hc
      simp only [hc, Bool.false_eq_true, if_false]
      exact obstacleLoop_fst_fields dinoBox obsBox rnd rest (i + 1) s

theorem obstacleLoop_snd_length (dinoBox : ℚ → Box) (obsBox : Obstacle → Box)
    (rnd : ℕ → ℚ) :
    ∀ (os : List Obstacle) (i : ℕ) (s : GameState),
      (obstacleLoop dinoBox obsBox rnd i s os).2.length = os.length
  | [], _, _ => rfl
  | o :: rest, i, s => by
    simp only [obstacleLoop, List.length_cons]
    rw [obstacleLoop_snd_length dinoBox obsBox rnd rest]

theorem obstacleLoop_snd_getD (dinoBox : ℚ → Box) (obsBox : Obstacle → Box)
    (rnd : ℕ → ℚ) :
    ∀ (os : List Obstacle) (i : ℕ) (s : GameState) (j : ℕ), j < os.length →
      (obstacleLoop dinoBox obsBox rnd i s os).2.getD j ⟨0, 0, 0⟩ =
        moveObstacle s.obstacle_speed (rnd (i + j)) (os.getD j ⟨0, 0, 0⟩)
  | [], _, _, j, hj => absurd hj (Nat.not_lt_zero j)
  | o :: rest, i, s, 0, _ => rfl
  | o :: rest, i, s, j + 1, hj => by
    have hj2 : j < rest.length := Nat.lt_of_succ_lt_succ hj
    have hsp : (if check_collision s.invincible (dinoBox s.dino_y)
        (obsBox (moveObstacle s.obstacle_speed (rnd i) o)) then game_over s
        else s).obstacle_speed = s.obstacle_speed := by
      split <;> rfl
    have ih := obstacleLoop_snd_getD dinoBox obsBox rnd rest (i + 1)
      (if check_collision s.invincible (dinoBox s.dino_y)
        (obsBox (moveObstacle s.obstacle_speed (rnd i) o)) then game_over s
        else s) j hj2
    simp only [obstacleLoop]
    rw [show (i + 1) + j = i + (j + 1) by omega] at ih
    rw [hsp] at ih
    exact ih

theorem increase_speed_paused (s : GameState) :
    (increase_speed s).paused = s.paused := by
  unfold increase_speed
  split <;> rfl

theorem increase_speed_mono (s : GameState) :
    s.obstacle_speed ≤ (increase_speed s).obstacle_speed := by
  unfold increase_speed
  split
  · dsimp only
    linarith
  · exact le_refl _

theorem iterate_increase_speed_paused (s : GameState) :
    ∀ N : ℕ, (increase_speed^[N] s).paused = s.paused := by
  intro N
  induction N with
  | zero => rfl
  | succ n ih =>
    rw [Function.iterate_succ_apply', increase_speed_paused, ih]

theorem increase_speed_of_lt (t : GameState)
    (h : t.obstacle_speed < 25 ∧ t.paused = false) :
    (increase_speed t).obstacle_speed = t.obstacle_speed + 0.75 := by
  unfold increase_speed
  rw [if_pos h]

theorem increase_speed_of_ge (t : GameState)
    (h : ¬(t.obstacle_speed < 25 ∧ t.paused = false)) :
    (increase_speed t).obstacle_speed = t.obstacle_speed := by
  unfold increase_speed
  rw [if_neg h]

theorem iterate_increase_speed_le_27 (s : GameState) (hp : s.paused = false)
    (h5 : s.obstacle_speed = 5) :
    ∀ N : ℕ, N ≤ 27 →
      (increase_speed^[N] s).obstacle_speed = 5 + (3 / 4 : ℚ) * N := by
  intro N
  induction N with
  | zero =>
    intro _
    simpa using h5
  | succ n ih =>
    intro hn
    have hn27 : n ≤ 26 := by omega
    have hval := ih (by omega)
    have hcond : (increase_speed^[n] s).obstacle_speed < 25 ∧
        (increase_speed^[n] s).paused = false := by
      constructor
      · rw [hval]
        have hc : (n : ℚ) ≤ 26 := by exact_mod_cast hn27
        linarith
      · rw [iterate_increase_speed_paused]
        exact hp
    rw [Function.iterate_succ_apply', increase_speed_of_lt _ hcond, hval]
    push_cast
    ring_nf

theorem iterate_increase_speed_ge_27 (s : GameState) (hp : s.paused = false)
    (h5 : s.obstacle_speed = 5) :
    ∀ N : ℕ, 27 ≤ N →
      (increase_speed^[N] s).obstacle_speed = 101 / 4 := by
  intro N
  induction N with
  | zero => omega
  | succ n ih =>
    intro hn
    rcases Nat.lt_or_ge n 27 with hlt | hge
    · have hn27 : n + 1 = 27 := by omega
      rw [hn27, iterate_increase_speed_le_27 s hp h5 27 (le_refl 27)]
      norm_num
    · have hval := ih hge
      have hneg : ¬((increase_speed^[n] s).obstacle_speed < 25 ∧
          (increase_speed^[n] s).paused = false) := by
        intro hcond
        rw [hval] at hcond
        have := hcond.1
        norm_num at this
      rw [Function.iterate_succ_apply', increase_speed_of_ge _ hneg]
      exact hval

theorem iterate_increase_speed_formula (s : GameState) (hp : s.paused = false)
    (h5 : s.obstacle_speed = 5) (N : ℕ) :
    (increase_speed^[N] s).obstacle_speed =
      min (101 / 4 : ℚ) (5 + (3 / 4) * N) := by
  rcases le_or_lt N 27 with hle | hgt
  · rw [iterate_increase_speed_le_27 s hp h5 N hle]
    have hc : (N : ℚ) ≤ 27 := by exact_mod_cast hle
    rw [min_eq_right]
    linarith
  · rw [iterate_increase_speed_ge_27 s hp h5 N (le_of_lt hgt)]
    have hc : (27 : ℚ) ≤ (N : ℚ) := by exact_mod_cast le_of_lt hgt
    rw [min_eq_left]
    linarith

theorem iterate_increase_speed_mono (s : GameState) (M : ℕ) :
    (increase_speed^[M] s).obstacle_speed ≤
      (increase_speed^[M + 1] s).obstacle_speed := by
  rw [Function.iterate_succ_apply']
  exact increase_speed_mono _

theorem ramp_run (s : GameState) :
    ∀ N : ℕ, ramp_tick^[N] (ramp_start s) =
      ⟨increase_speed^[2 * N + 1] s, 2⟩ := by
  intro N
  induction N with
  | zero =>
    show ramp_start s = _
    unfold ramp_start
    norm_num
  | succ n ih =>
    rw [Function.iterate_succ_apply', ih]
    show RampSched.mk (increase_speed^[2] (increase_speed^[2 * n + 1] s)) 2 = _
    rw [← Function.iterate_add_apply]
    have harith : 2 + (2 * n + 1) = 2 * (n + 1) + 1 := by omega
    rw [harith]

theorem dinoPhysics_ground (s : GameState)
    (h : s.dino_jump = false → s.dino_y = 248) :
    (dinoPhysics s).dino_jump = false → (dinoPhysics s).dino_y = 248 := by
  obtain ⟨pn, sc, dy, dj, dv, osp, obs, gr, pa, inv, kb, lb, sv⟩ := s
  cases dj with
  | false => exact fun _ => h rfl
  | true =>
    intro hjump
    simp only [dinoPhysics, if_true, eq_self_iff_true] at hjump ⊢
    split at hjump
    · rename_i hc
      rw [if_pos hc]
    · rename_i hc
      exact absurd hjump (by simp)

theorem update_game_of_running (dinoBox : ℚ → Box) (obsBox : Obstacle → Box)
    (rnd : ℕ → ℚ) (s : GameState) (hrun : s.game_running = true)
    (hp : s.paused = false) :
    update_game dinoBox obsBox rnd s =
      ({ (obstacleLoop dinoBox obsBox rnd 0 (dinoPhysics s) s.obstacles).1 with
          obstacles :=
            (obstacleLoop dinoBox obsBox rnd 0 (dinoPhysics s) s.obstacles).2 },
        true) := by
  unfold update_game
  simp only [hrun, hp, Bool.not_true, Bool.or_false, Bool.false_eq_true, if_false]
  rw [dinoPhysics_obstacles]

/-! Claim theorems. -/

/-- C2: while `invincible` is true, a step (`update_game`) never transitions
the session to game over — `game_running` and the leaderboard are untouched —
and the collision check is skipped entirely: it returns `false` for every
pair of bounding boxes. -/
theorem invincible_never_game_over (dinoBox : ℚ → Box) (obsBox : Obstacle → Box)
    (rnd : ℕ → ℚ) (s : GameState) (h : s.invincible = true) :
    (update_game dinoBox obsBox rnd s).1.game_running = s.game_running ∧
    (update_game dinoBox obsBox rnd s).1.leaderboard = s.leaderboard ∧
    ∀ d o : Box, check_collision true d o = false := by
  have hinv : (dinoPhysics s).invincible = true := by
    rw [dinoPhysics_invincible, h]
  refine ⟨?_, ?_, fun d o => rfl⟩
  · unfold update_game
    split
    · rfl
    · dsimp only
      rw [obstacleLoop_fst_of_invincible dinoBox obsBox rnd _ 0 _ hinv]
      exact dinoPhysics_game_running s
  · unfold update_game
    split
    · rfl
    · dsimp only
      rw [obstacleLoop_fst_of_invincible dinoBox obsBox rnd _ 0 _ hinv]
      exact dinoPhysics_leaderboard s

/-- Witness for C2: a concrete invincible session whose only obstacle
overlaps the dino's bounding box. -/
theorem invincible_never_game_over_witness :
    sInv.invincible = true ∧
    ((update_game wideDinoBox wideObsBox rnd900 sInv).1.game_running =
        sInv.game_running ∧
      (update_game wideDinoBox wideObsBox rnd900 sInv).1.leaderboard =
        sInv.leaderboard ∧
      ∀ d o : Box, check_collision true d o = false) :=
  ⟨rfl, invincible_never_game_over wideDinoBox wideObsBox rnd900 sInv rfl⟩

/-- C9 (amended): `update_game` is a no-op — state unchanged, no reschedule —
whenever the game is not running or is paused; otherwise it always reaches
the final reschedule call, i.e. it reschedules iff the session was running
and unpaused at the start of the step, even when the step itself transitioned
to game over. -/
theorem step_noop_and_reschedule (dinoBox : ℚ → Box) (obsBox : Obstacle → Box)
    (rnd : ℕ → ℚ) (s : GameState) :
    (s.game_running = false ∨ s.paused = true →
      update_game dinoBox obsBox rnd s = (s, false)) ∧
    (update_game dinoBox obsBox rnd s).2 = (s.game_running && !s.paused) := by
  constructor
  · intro h
    unfold update_game
    rcases h with h | h <;> simp [h]
  · by_cases h1 : s.game_running = true
    · by_cases h2 : s.paused = true
      · unfold update_game
        simp [h1, h2]
      · simp only [Bool.not_eq_true] at h2
        rw [update_game_of_running dinoBox obsBox rnd s h1 h2, h1, h2]
        rfl
    · simp only [Bool.not_eq_true] at h1
      unfold update_game
      simp [h1]

/-- Witness for C9 on a paused session: the step is a no-op. -/
theorem step_noop_and_reschedule_witness :
    (sHalt.game_running = false ∨ sHalt.paused = true) ∧
    update_game flatDinoBox noBox rnd900 sHalt = (sHalt, false) :=
  ⟨Or.inr rfl,
    (step_noop_and_reschedule flatDinoBox noBox rnd900 sHalt).1 (Or.inr rfl)⟩

/-- C9 counterexample: on `sTwin` the step transitions to game over
(`game_running` becomes false), yet the reschedule call at the end of
`update_game` is still reached — the original "reschedules iff still
Running" is false. -/
theorem reschedule_after_game_over_cex :
    (update_game wideDinoBox wideObsBox rnd900 sTwin).1.game_running = false ∧
    (update_game wideDinoBox wideObsBox rnd900 sTwin).2 = true := by
  constructor
  · norm_num [update_game, sTwin, setup_game, dinoPhysics, obstacleLoop,
      moveObstacle, check_collision, game_over, wideDinoBox, wideObsBox, rnd900]
  · norm_num [update_game, sTwin, setup_game]

/-- C5 (amended): the position half of the player invariant holds: `jumping ==
false` implies `verticalPosition == 248` is true of a fresh session and is
preserved by every `update_game` step and every `jump`.  (The velocity half
of the spec's invariant fails on the code: landing does not clear
`dino_speed`.) -/
theorem ground_invariant_preserved (dinoBox : ℚ → Box) (obsBox : Obstacle → Box)
    (rnd : ℕ → ℚ) (s : GameState) (name : String) (kb : Keybinds)
    (lb : List (String × ℕ)) (sv iv : Bool) (h : groundInvariant s) :
    groundInvariant (update_game dinoBox obsBox rnd s).1 ∧
    groundInvariant (jump s) ∧
    groundInvariant (setup_game name kb lb sv iv) := by
  refine ⟨?_, ?_, fun _ => rfl⟩
  · by_cases hrun : s.game_running = true
    · by_cases hp : s.paused = true
      · unfold update_game
        simp only [hp, Bool.or_true, Bool.true_eq_false, if_true]
        exact h
      · simp only [Bool.not_eq_true] at hp
        rw [update_game_of_running dinoBox obsBox rnd s hrun hp]
        intro hjump
        have hf := obstacleLoop_fst_fields dinoBox obsBox rnd s.obstacles 0
          (dinoPhysics s)
        have hjump2 : (dinoPhysics s).dino_jump = false := by
          rw [← hf.2.1]
          exact hjump
        show (obstacleLoop dinoBox obsBox rnd 0 (dinoPhysics s) s.obstacles).1.dino_y
          = 248
        rw [hf.1]
        exact dinoPhysics_ground s h hjump2
    · simp only [Bool.not_eq_true] at hrun
      unfold update_game
      simp only [hrun, Bool.not_false, Bool.true_or, if_true]
      exact h
  · unfold jump
    split
    · intro hh
      simp at hh
    · exact h

/-- Witness for C5 on a fresh session with its obstacles on screen. -/
theorem ground_invariant_preserved_witness :
    groundInvariant sJump0 ∧
    (groundInvariant (update_game flatDinoBox noBox rnd900 sJump0).1 ∧
      groundInvariant (jump sJump0) ∧
      groundInvariant (setup_game "Player" defaultKeybinds [] false false)) :=
  ⟨fun _ => rfl,
    ground_invariant_preserved flatDinoBox noBox rnd900 sJump0 "Player"
      defaultKeybinds [] false false (fun _ => rfl)⟩

/-- C5 counterexample: starting a fresh session, pressing jump once and
running 28 update steps (with bounding boxes that never collide), the dino
has landed — `dino_jump` is `false` and `dino_y` is back to the ground 248 —
yet `dino_speed` is 86/5, not 0: the code never clears the velocity on
landing, refuting the velocity half of the claimed invariant. -/
theorem landing_residual_velocity_cex :
    (stepCE (stepCE (stepCE (stepCE (stepCE (stepCE (stepCE (stepCE (stepCE (stepCE (stepCE (stepCE (stepCE (stepCE (stepCE (stepCE (stepCE (stepCE (stepCE (stepCE (stepCE (stepCE (stepCE (stepCE (stepCE (stepCE (stepCE (stepCE (jump sJump0))))))))))))))))))))))))))))).dino_jump = false ∧
    (stepCE (stepCE (stepCE (stepCE (stepCE (stepCE (stepCE (stepCE (stepCE (stepCE (stepCE (stepCE (stepCE (stepCE (stepCE (stepCE (stepCE (stepCE (stepCE (stepCE (stepCE (stepCE (stepCE (stepCE (stepCE (stepCE (stepCE (stepCE (jump sJump0))))))))))))))))))))))))))))).dino_y = 248 ∧
    (stepCE (stepCE (stepCE (stepCE (stepCE (stepCE (stepCE (stepCE (stepCE (stepCE (stepCE (stepCE (stepCE (stepCE (stepCE (stepCE (stepCE (stepCE (stepCE (stepCE (stepCE (stepCE (stepCE (stepCE (stepCE (stepCE (stepCE (stepCE (jump sJump0))))))))))))))))))))))))))))).dino_speed ≠ 0 := by
  norm_num [stepCE, jump, sJump0, setup_game, update_game, dinoPhysics,
    obstacleLoop, moveObstacle, check_collision, game_over, flatDinoBox, noBox,
    rnd900]

/-- C3 (amended): `obstacle_speed` is initialized to 5.0, but the ramp is
double-scheduled: `setup_game` both registers the 5-second callback (line
200) and calls `increase_speed` directly (line 219), and every invocation
re-registers itself unconditionally (line 358).  So one gated increment
happens at setup and two callbacks fire per 5-second boundary thereafter
(the pending count stays 2): after `N` unpaused 5-second intervals the speed
equals `min(25.25, 5 + 0.75*(2N+1))`.  It is monotone non-decreasing, never
resets within a session, and ends at 25.25 because the guard compares
against 25 before adding 0.75. -/
theorem speed_ramp (s : GameState) (hp : s.paused = false)
    (h5 : s.obstacle_speed = 5) (N : ℕ) (name : String) (kb : Keybinds)
    (lb : List (String × ℕ)) (sv iv : Bool) :
    (setup_game name kb lb sv iv).obstacle_speed = 5 ∧
    (ramp_tick^[N] (ramp_start s)).pending = 2 ∧
    (ramp_tick^[N] (ramp_start s)).state.obstacle_speed =
      min (101 / 4 : ℚ) (5 + (3 / 4) * ((2 * N + 1 : ℕ) : ℚ)) ∧
    (ramp_tick^[N] (ramp_start s)).state.obstacle_speed ≤
      (ramp_tick^[N + 1] (ramp_start s)).state.obstacle_speed ∧
    (ramp_tick^[N] (ramp_start s)).state.obstacle_speed ≤ 101 / 4 := by
  have hr := ramp_run s N
  have hr1 := ramp_run s (N + 1)
  refine ⟨rfl, ?_, ?_, ?_, ?_⟩
  · rw [hr]
  · rw [hr]
    exact iterate_increase_speed_formula s hp h5 (2 * N + 1)
  · rw [hr, hr1]
    show (increase_speed^[2 * N + 1] s).obstacle_speed ≤
      (increase_speed^[2 * (N + 1) + 1] s).obstacle_speed
    have h2 : 2 * (N + 1) + 1 = 2 * N + 1 + 1 + 1 := by omega
    rw [h2]
    exact le_trans (iterate_increase_speed_mono s (2 * N + 1))
      (iterate_increase_speed_mono s (2 * N + 1 + 1))
  · rw [hr]
    show (increase_speed^[2 * N + 1] s).obstacle_speed ≤ 101 / 4
    rw [iterate_increase_speed_formula s hp h5 (2 * N + 1)]
    exact min_le_left _ _

/-- Witness for C3 on a fresh session after 4 unpaused 5-second intervals. -/
theorem speed_ramp_witness :
    (sJump0.paused = false ∧ sJump0.obstacle_speed = 5) ∧
    ((setup_game "Player" defaultKeybinds [] false false).obstacle_speed = 5 ∧
      (ramp_tick^[4] (ramp_start sJump0)).pending = 2 ∧
      (ramp_tick^[4] (ramp_start sJump0)).state.obstacle_speed =
        min (101 / 4 : ℚ) (5 + (3 / 4) * ((2 * 4 + 1 : ℕ) : ℚ)) ∧
      (ramp_tick^[4] (ramp_start sJump0)).state.obstacle_speed ≤
        (ramp_tick^[4 + 1] (ramp_start sJump0)).state.obstacle_speed ∧
      (ramp_tick^[4] (ramp_start sJump0)).state.obstacle_speed ≤ 101 / 4) :=
  ⟨⟨rfl, rfl⟩,
    speed_ramp sJump0 rfl rfl 4 "Player" defaultKeybinds [] false false⟩

/-- C3 counterexample: one unpaused 5-second interval after a fresh start the
speed is already 7.25 — the double-scheduled ramp fires twice per interval on
top of the increment at setup — not the claimed `min(25, 5 + 0.75*1) = 5.75`;
and after 13 intervals it is 25.25, exceeding the claimed cap 25.0. -/
theorem speed_ramp_cex :
    (ramp_tick^[1] (ramp_start sJump0)).state.obstacle_speed = 29 / 4 ∧
    (ramp_tick^[1] (ramp_start sJump0)).state.obstacle_speed ≠
      min (25 : ℚ) (5 + (3 / 4) * ((1 : ℕ) : ℚ)) ∧
    (ramp_tick^[13] (ramp_start sJump0)).state.obstacle_speed = 101 / 4 ∧
    ¬((ramp_tick^[13] (ramp_start sJump0)).state.obstacle_speed ≤ 25) := by
  have h1 := ramp_run sJump0 1
  have h13 := ramp_run sJump0 13
  have f3 := iterate_increase_speed_formula sJump0 rfl rfl 3
  have f27 := iterate_increase_speed_formula sJump0 rfl rfl 27
  refine ⟨?_, ?_, ?_, ?_⟩
  · rw [h1]
    show (increase_speed^[3] sJump0).obstacle_speed = 29 / 4
    rw [f3]
    norm_num
  · rw [h1]
    show (increase_speed^[3] sJump0).obstacle_speed ≠
      min (25 : ℚ) (5 + (3 / 4) * ((1 : ℕ) : ℚ))
    rw [f3]
    norm_num
  · rw [h13]
    show (increase_speed^[27] sJump0).obstacle_speed = 101 / 4
    rw [f27]
    norm_num
  · rw [h13]
    show ¬((increase_speed^[27] sJump0).obstacle_speed ≤ 25)
    rw [f27]
    norm_num

theorem scoreDescLe_trans : ∀ a b c : String × ℕ,
    scoreDescLe a b → scoreDescLe b c → scoreDescLe a c := by
  intro a b c hab hbc
  simp only [scoreDescLe, decide_eq_true_eq] at hab hbc ⊢
  omega

theorem scoreDescLe_total : ∀ a b : String × ℕ,
    scoreDescLe a b || scoreDescLe b a := by
  intro a b
  simp only [scoreDescLe, Bool.or_eq_true, decide_eq_true_eq]
  omega

/-- C4 (amended): each `game_over` call sets the leaderboard to the
5-truncation of a stable descending sort of the previous board with
`(playerName, score)` appended: before truncation the new pair occurs exactly
once more than before, the result is sorted descending by score, its length
is `min 5 (old length + 1)`, and any already-descending subsequence of the
input — in particular any run of equal scores in insertion order — survives
into the sorted list (stability).  A tick in which both obstacles collide
calls `game_over` twice and therefore appends two entries, so "exactly once
per completed session" holds only for sessions ending through a
single-collision tick. -/
theorem game_over_leaderboard (s : GameState) :
    (game_over s).leaderboard =
      ((s.leaderboard ++ [(s.player_name, s.score)]).mergeSort scoreDescLe).take 5 ∧
    ((s.leaderboard ++ [(s.player_name, s.score)]).mergeSort scoreDescLe).Perm
      (s.leaderboard ++ [(s.player_name, s.score)]) ∧
    (game_over s).leaderboard.Pairwise (fun a b => b.2 ≤ a.2) ∧
    (game_over s).leaderboard.length = min 5 (s.leaderboard.length + 1) ∧
    ∀ c : List (String × ℕ), c.Pairwise (fun a b => b.2 ≤ a.2) →
      c.Sublist (s.leaderboard ++ [(s.player_name, s.score)]) →
      c.Sublist
        ((s.leaderboard ++ [(s.player_name, s.score)]).mergeSort scoreDescLe) := by
  refine ⟨rfl, ?_, ?_, ?_, ?_⟩
  · exact List.mergeSort_perm _ scoreDescLe
  · have hs := List.sorted_mergeSort scoreDescLe_trans scoreDescLe_total
      (s.leaderboard ++ [(s.player_name, s.score)])
    have hs2 : ((s.leaderboard ++ [(s.player_name, s.score)]).mergeSort
        scoreDescLe).Pairwise (fun a b => b.2 ≤ a.2) :=
      hs.imp (by simp [scoreDescLe])
    exact hs2.sublist (List.take_sublist 5 _)
  · show (((s.leaderboard ++ [(s.player_name, s.score)]).mergeSort
        scoreDescLe).take 5).length = _
    rw [List.length_take, List.length_mergeSort, List.length_append]
    simp
  · intro c hc hsub
    refine List.sublist_mergeSort scoreDescLe_trans scoreDescLe_total ?_ hsub
    exact hc.imp (by simp [scoreDescLe])

/-- Witness for C4: ending `sLead` (score 50, board `[("A",50), ("B",50)]`)
keeps the three equal-score entries in insertion order. -/
theorem game_over_leaderboard_witness :
    (([("A", 50), ("B", 50), ("C", 50)] : List (String × ℕ)).Pairwise
        (fun a b => b.2 ≤ a.2) ∧
      ([("A", 50), ("B", 50), ("C", 50)] : List (String × ℕ)).Sublist
        (sLead.leaderboard ++ [(sLead.player_name, sLead.score)])) ∧
    ([("A", 50), ("B", 50), ("C", 50)] : List (String × ℕ)).Sublist
      ((sLead.leaderboard ++ [(sLead.player_name, sLead.score)]).mergeSort
        scoreDescLe) := by
  have h1 : (([("A", 50), ("B", 50), ("C", 50)] : List (String × ℕ)).Pairwise
      (fun a b => b.2 ≤ a.2)) := by
    simp
  have h2 : ([("A", 50), ("B", 50), ("C", 50)] : List (String × ℕ)).Sublist
      (sLead.leaderboard ++ [(sLead.player_name, sLead.score)]) := by
    show ([("A", 50), ("B", 50), ("C", 50)] : List (String × ℕ)).Sublist
      [("A", 50), ("B", 50), ("C", 50)]
    exact List.Sublist.refl _
  exact ⟨⟨h1, h2⟩, (game_over_leaderboard sLead).2.2.2.2 _ h1 h2⟩

/-- C4 counterexample: on `sTwin` — a running session whose two obstacles
coincide and overlap the dino — the single terminal tick calls `game_over`
once per colliding obstacle, appending `("P", 7)` twice: the leaderboard
gains two entries for one completed session. -/
theorem double_game_over_append_cex :
    (update_game wideDinoBox wideObsBox rnd900 sTwin).1.leaderboard =
      [("P", 7), ("P", 7)] ∧
    ((update_game wideDinoBox wideObsBox rnd900 sTwin).1.leaderboard).count
        ("P", 7) = 2 ∧
    sTwin.leaderboard.length = 0 := by
  have hms1 : ([(("P" : String), (7 : ℕ))]).mergeSort scoreDescLe = [("P", 7)] :=
    List.mergeSort_singleton _
  have hms2 : ([(("P" : String), (7 : ℕ)), ("P", 7)]).mergeSort scoreDescLe =
      [("P", 7), ("P", 7)] :=
    List.mergeSort_of_sorted (by simp [scoreDescLe])
  have h : (update_game wideDinoBox wideObsBox rnd900 sTwin).1.leaderboard =
      [("P", 7), ("P", 7)] := by
    norm_num [update_game, sTwin, setup_game, dinoPhysics, obstacleLoop,
      moveObstacle, check_collision, game_over, wideDinoBox, wideObsBox, rnd900,
      hms1, hms2]
  refine ⟨h, ?_, rfl⟩
  rw [h]
  simp [List.count_cons]

/-- C6 (amended): during a running, unpaused step, the obstacle pool size is
preserved (and an initial spawn creates exactly 2 obstacles); an obstacle
whose position drops below 0 after moving is reset to the fresh draw for its
slot (at y = 340, keeping its sprite), which lies in the closed range
[800, 1100] — `random.randint(800, 1100)` includes both endpoints, so 1100
itself can occur. -/
theorem recycle_range_and_pool (dinoBox : ℚ → Box) (obsBox : Obstacle → Box)
    (rnd : ℕ → ℚ) (s : GameState) (r1 roff : ℚ) (j : ℕ)
    (hrun : s.game_running = true) (hp : s.paused = false)
    (hlo : ∀ i, 800 ≤ rnd i) (hhi : ∀ i, rnd i ≤ 1100)
    (hj : j < s.obstacles.length)
    (hx : (s.obstacles.getD j ⟨0, 0, 0⟩).x - s.obstacle_speed < 0) :
    ((update_game dinoBox obsBox rnd s).1.obstacles).length =
      s.obstacles.length ∧
    (create_obstacles r1 roff []).length = 2 ∧
    ((update_game dinoBox obsBox rnd s).1.obstacles).getD j ⟨0, 0, 0⟩ =
      ⟨rnd j, 340, (s.obstacles.getD j ⟨0, 0, 0⟩).image_index⟩ ∧
    800 ≤ rnd j ∧ rnd j ≤ 1100 := by
  rw [update_game_of_running dinoBox obsBox rnd s hrun hp]
  refine ⟨?_, rfl, ?_, hlo j, hhi j⟩
  · show (obstacleLoop dinoBox obsBox rnd 0 (dinoPhysics s) s.obstacles).2.length
      = s.obstacles.length
    exact obstacleLoop_snd_length dinoBox obsBox rnd s.obstacles 0 (dinoPhysics s)
  · show (obstacleLoop dinoBox obsBox rnd 0 (dinoPhysics s)
        s.obstacles).2.getD j ⟨0, 0, 0⟩ = _
    rw [obstacleLoop_snd_getD dinoBox obsBox rnd s.obstacles 0 (dinoPhysics s) j hj]
    rw [dinoPhysics_obstacle_speed, Nat.zero_add]
    unfold moveObstacle
    rw [if_pos hx]

/-- Witness for C6: on `sRecycle` (first obstacle at x = 3, speed 5) with the
constant draw 900, the first obstacle is recycled to 900. -/
theorem recycle_range_and_pool_witness :
    (sRecycle.game_running = true ∧ sRecycle.paused = false ∧
      0 < sRecycle.obstacles.length ∧
      (sRecycle.obstacles.getD 0 ⟨0, 0, 0⟩).x - sRecycle.obstacle_speed < 0) ∧
    (((update_game flatDinoBox noBox rnd900 sRecycle).1.obstacles).length =
        sRecycle.obstacles.length ∧
      (create_obstacles 800 500 []).length = 2 ∧
      ((update_game flatDinoBox noBox rnd900 sRecycle).1.obstacles).getD 0
          ⟨0, 0, 0⟩ =
        ⟨rnd900 0, 340, (sRecycle.obstacles.getD 0 ⟨0, 0, 0⟩).image_index⟩ ∧
      800 ≤ rnd900 0 ∧ rnd900 0 ≤ 1100) :=
  ⟨⟨rfl, rfl, by norm_num [sRecycle, setup_game],
      by norm_num [sRecycle, setup_game]⟩,
    recycle_range_and_pool flatDinoBox noBox rnd900 sRecycle 800 500 0 rfl rfl
      (fun i => by norm_num [rnd900]) (fun i => by norm_num [rnd900])
      (by norm_num [sRecycle, setup_game])
      (by norm_num [sRecycle, setup_game])⟩

/-- C6 counterexample: with the draw 1100 — a value `random.randint(800,
1100)` does return, the upper bound being inclusive — the recycled obstacle's
next position is exactly 1100, which is outside the claimed half-open range
[800, 1100). -/
theorem recycle_upper_bound_cex :
    ((update_game flatDinoBox noBox rnd1100 sRecycle).1.obstacles).getD 0
        ⟨0, 0, 0⟩ =
      (⟨1100, 340, 0⟩ : Obstacle) ∧
    ¬((800 : ℚ) ≤ 1100 ∧ (1100 : ℚ) < 1100) := by
  constructor
  · norm_num [update_game, sRecycle, setup_game, dinoPhysics, obstacleLoop,
      moveObstacle, check_collision, game_over, flatDinoBox, noBox, rnd1100]
  · norm_num

/-- C7: the round trip through `save_game_state` and the restore path —
`load_initial_state` re-reads the leaderboard from the same file at startup,
`load_saved_state` restores the remaining fields — reproduces every claimed
session field (`playerName`, `score`, `verticalPosition`, `jumping`,
`verticalVelocity`, `obstacleSpeed`, `keybinds`, `leaderboard`); the stored
obstacle list is empty when no render surface is attached, and restoring an
empty obstacle list triggers `create_obstacles`, producing exactly 2
obstacles. -/
theorem save_load_roundtrip (s prior : GameState) (canvasUp : Bool)
    (r1 roff : ℚ) :
    ((load_saved_state prior (save_game_state (s.toApp canvasUp)).toSaveFile
          r1 roff).player_name = s.player_name ∧
      (load_saved_state prior (save_game_state (s.toApp canvasUp)).toSaveFile
          r1 roff).score = s.score ∧
      (load_saved_state prior (save_game_state (s.toApp canvasUp)).toSaveFile
          r1 roff).dino_y = s.dino_y ∧
      (load_saved_state prior (save_game_state (s.toApp canvasUp)).toSaveFile
          r1 roff).dino_jump = s.dino_jump ∧
      (load_saved_state prior (save_game_state (s.toApp canvasUp)).toSaveFile
          r1 roff).dino_speed = s.dino_speed ∧
      (load_saved_state prior (save_game_state (s.toApp canvasUp)).toSaveFile
          r1 roff).obstacle_speed = s.obstacle_speed ∧
      (load_saved_state prior (save_game_state (s.toApp canvasUp)).toSaveFile
          r1 roff).keybinds = s.keybinds) ∧
    (load_initial_state [] defaultKeybinds
        (some (save_game_state (s.toApp canvasUp)).toSaveFile)).1 =
      s.leaderboard ∧
    (canvasUp = false → (save_game_state (s.toApp canvasUp)).obstacles = []) ∧
    ((save_game_state (s.toApp canvasUp)).obstacles = [] →
      (load_saved_state prior (save_game_state (s.toApp canvasUp)).toSaveFile
          r1 roff).obstacles.length = 2) := by
  refine ⟨⟨rfl, rfl, rfl, rfl, rfl, rfl, rfl⟩, ?_, ?_, ?_⟩
  · simp [load_initial_state, Snapshot.toSaveFile, save_game_state,
      GameState.toApp]
  · intro hc
    simp [save_game_state, GameState.toApp, hc]
  · intro hobs
    simp only [load_saved_state, Snapshot.toSaveFile, Option.getD_some, hobs]
    simp [create_obstacles]

/-- Witness for C7: saving `sJump0` with no render surface stores an empty
obstacle list, and restoring it spawns exactly 2 obstacles. -/
theorem save_load_roundtrip_witness :
    (save_game_state (sJump0.toApp false)).obstacles = [] ∧
    (load_saved_state sHalt (save_game_state (sJump0.toApp false)).toSaveFile
        800 500).obstacles.length = 2 :=
  ⟨rfl, (save_load_roundtrip sJump0 sHalt false 800 500).2.2.2 rfl⟩

/-- C8: a parsed snapshot is valid for resume eligibility iff it contains
both a `score` and a `keybinds` field; a missing or unparsable file, or a
snapshot missing either field, all yield the same outcome as no saved game —
the default leaderboard and keybinds, with no saved state recorded — and the
loader is a total function, never an error. -/
theorem resume_eligibility (file : Option SaveFile) :
    ((load_initial_state [] defaultKeybinds file).2.2 = true ↔
      ∃ gs, file = some gs ∧ gs.score.isSome = true ∧
        gs.keybinds.isSome = true) ∧
    ((load_initial_state [] defaultKeybinds file).2.2 = false →
      load_initial_state [] defaultKeybinds file =
        ([], defaultKeybinds, false)) := by
  cases file with
  | none => simp [load_initial_state]
  | some gs =>
    by_cases h1 : gs.score.isSome = true
    · by_cases h2 : gs.keybinds.isSome = true
      · simp [load_initial_state, h1, h2]
      · simp [load_initial_state, h1, h2]
    · simp [load_initial_state, h1]

/-- Witness for C8: a parsed file missing the `score` key is treated exactly
like a missing file. -/
theorem resume_eligibility_witness :
    (load_initial_state [] defaultKeybinds
        (some ⟨some "P", none, none, none, none, none, some defaultKeybinds,
          none, none⟩)).2.2 = false ∧
    load_initial_state [] defaultKeybinds
        (some ⟨some "P", none, none, none, none, none, some defaultKeybinds,
          none, none⟩) =
      ([], defaultKeybinds, false) :=
  ⟨rfl,
    (resume_eligibility
        (some ⟨some "P", none, none, none, none, none, some defaultKeybinds,
          none, none⟩)).2 rfl⟩

/-- C10: serializing when no player actor exists (for instance when
`save_keybinds` saves from the settings menu before any game) substitutes the
`getattr` defaults: `dino_y = 300` — which differs from the ground value and
the restore default, both 248 — together with `score = 0` and `dino_jump =
false`; the written snapshot still carries `score` and `keybinds` keys, so it
passes resume eligibility. -/
theorem save_without_actor (kb : Keybinds) (lb : List (String × ℕ)) :
    (save_game_state ⟨none, none, none, none, none, none, kb, lb, none⟩).dino_y
      = 300 ∧
    (save_game_state ⟨none, none, none, none, none, none, kb, lb, none⟩).dino_y
      ≠ 248 ∧
    (save_game_state ⟨none, none, none, none, none, none, kb, lb, none⟩).score
      = 0 ∧
    (save_game_state
        ⟨none, none, none, none, none, none, kb, lb, none⟩).dino_jump =
      false ∧
    (load_initial_state [] defaultKeybinds
        (some (save_game_state
          ⟨none, none, none, none, none, none, kb, lb, none⟩).toSaveFile)).2.2 =
      true := by
  refine ⟨rfl, by norm_num [save_game_state], rfl, rfl, ?_⟩
  simp [load_initial_state, Snapshot.toSaveFile]

end DinoGame
